import Mathlib

/-!
# Verification of the `spreadsheet` engine

Shallow embedding of the Python sources in `src/spreadsheet/`
(`sheet_primitives.py`, `formula.py`, `formula_parser.py`, `spreadsheet.py`).

Modelling conventions:
* Python `int` is `Int`; Python `float` is modelled as `ℚ` (every numeric
  literal and every arithmetic result arising in the verified statements is
  exactly representable, so no rounding behaviour is relied upon).
* Python exceptions are an explicit error type `PyErr`; `raise` becomes
  returning `.error`, and `try/except ValueError` catches exactly the
  `valueError` constructor.
* Python's builtin `int(str)` / `float(str)` conversions are modelled for
  ASCII input: surrounding whitespace, an optional sign, and (for `int`)
  single underscores between digits.  Unicode digits and the float forms
  `inf`/`nan`/exponents are not modelled; no statement below depends on them.
* Unbounded recursion through the cell-lookup callback (Python would grow the
  call stack) is modelled with explicit fuel; `PyErr.outOfFuel` marks fuel
  exhaustion and corresponds to Python's stack overflow on cyclic references.
-/

namespace Spreadsheet

/-- ASCII whitespace as stripped by Python's `str.strip()` (for the inputs in
scope; Python also strips some unicode whitespace, which we do not model). -/
def isPyWhitespace (c : Char) : Bool :=
  c = ' ' || c = '\t' || c = '\n' || c = '\r' || c = '\x0b' || c = '\x0c'

/-- Python `str.strip()`: remove leading and trailing whitespace. -/
def pyStripList (cs : List Char) : List Char :=
  ((cs.dropWhile isPyWhitespace).reverse.dropWhile isPyWhitespace).reverse

/-- Python `str.strip()` on a `String`. -/
def pyStrip (s : String) : String :=
  ⟨pyStripList s.data⟩

/-- Uppercase A–Z test, mirroring `ord("A") <= ord(c) <= ord("Z")`. -/
def isUpperAZ (c : Char) : Bool :=
  'A' ≤ c && c ≤ 'Z'

/-- ASCII digit test, mirroring membership in `DIGITS`. -/
def isDigit09 (c : Char) : Bool :=
  '0' ≤ c && c ≤ '9'

/-- Numeric value of an ASCII digit character. -/
def digitVal (c : Char) : Nat := c.toNat - '0'.toNat

/-- Value of a list of ASCII digit characters (underscores skipped), the
accumulator pass of Python's integer literal conversion. -/
def digitsToNat (cs : List Char) : Nat :=
  cs.foldl (fun acc c => if c = '_' then acc else 10 * acc + digitVal c) 0

/-- Valid digit body for Python `int(...)`: one or more ASCII digits, with
single underscores allowed strictly between digits (PEP 515). -/
def intDigitsValid : List Char → Bool
  | [] => false
  | [c] => isDigit09 c
  | c :: c2 :: rest =>
    isDigit09 c && (if c2 = '_' then intDigitsValid rest else intDigitsValid (c2 :: rest))

/-- Model of Python's builtin `int(s)` on ASCII input: strip whitespace, read
an optional sign, then a digit body with optional underscores between digits.
`none` models the `ValueError` Python raises. -/
def pythonInt (s : String) : Option Int :=
  match pyStripList s.data with
  | [] => none
  | c :: body =>
    if c = '+' then
      if intDigitsValid body then some (digitsToNat body) else none
    else if c = '-' then
      if intDigitsValid body then some (-(digitsToNat body : Int)) else none
    else
      if intDigitsValid (c :: body) then some (digitsToNat (c :: body)) else none

/-- Valid unsigned float body for Python `float(...)` as modelled here:
`digits`, `digits.digits`, `digits.`, or `.digits` — at least one digit in
total.  Exponent, `inf`/`nan` and underscore forms are not modelled; no
statement below depends on them.  Returns the value as a rational. -/
def floatBodyVal (cs : List Char) : Option ℚ :=
  let intPart := cs.takeWhile isDigit09
  let rest := cs.dropWhile isDigit09
  match rest with
  | [] => if intPart.isEmpty then none else some (digitsToNat intPart : ℚ)
  | '.' :: frac =>
    if frac.all isDigit09 && !(intPart.isEmpty && frac.isEmpty) then
      some ((digitsToNat intPart : ℚ) + (digitsToNat frac : ℚ) / (10 ^ frac.length : ℚ))
    else none
  | _ => none

/-- Model of Python's builtin `float(s)` on ASCII input: strip whitespace,
optional sign, then a decimal body.  `none` models `ValueError`. -/
def pythonFloat (s : String) : Option ℚ :=
  match pyStripList s.data with
  | '+' :: body => floatBodyVal body
  | '-' :: body => (floatBodyVal body).map (fun q => -q)
  | body => floatBodyVal body

/-- Type `Numeric = Union[int, float]` from `sheet_primitives.py`. -/
inductive Numeric where
  | int (i : Int)
  | float (q : ℚ)
  deriving DecidableEq, Repr

/-- Python unary minus on a numeric, as in `-numeric_literal`. -/
def Numeric.neg : Numeric → Numeric
  | .int i => .int (-i)
  | .float q => .float (-q)

/-- Embedding of `Spreadsheet._parse_key` (`spreadsheet.py`): split a cell key into the
0-based row index and the column letter, raising `KeyError` on malformed
input.  `row = int(cell_key[1:]) - 1` uses Python's `int`. -/
def parse_key (cell_key : String) : Except String (Nat × Char) :=
  if cell_key.length < 2 then
    .error "Malformed cell key."
  else
    match cell_key.data with
    | [] => .error "Malformed cell key."
    | col :: rest =>
      if !isUpperAZ col then
        .error "Malformed cell key. Expected first half to be a character between A and Z."
      else
        match pythonInt ⟨rest⟩ with
        | none => .error "Malformed cell key. Expected second half to be integer row identifier"
        | some n =>
          if n - 1 < 0 then
            .error "Malformed cell key. Expected row identifier to be greater than 0."
          else
            .ok ((n - 1).toNat, col)

/-- Embedding of `Expression` from `formula.py`:
`Union[Operand, tuple[Literal["="], Expression], tuple[Operation, Expression, Expression]]`
where `Operand = Union[Formula, CellKey]`; numeric literals (`int`/`float`)
also occur in trees built by the parser (handled first in
`_compute_expression`).  Operators are their Python characters.  A nested
`Formula` object used as an operand carries its expression and `negated`
flag directly in the `subFormula` constructor. -/
inductive Expr where
  | num (n : Numeric)
  | cellRef (key : String)
  | wrap (e : Expr)
  | binOp (op : Char) (left right : Expr)
  | subFormula (expression : Expr) (negated : Bool)
  deriving DecidableEq

/-- The `Formula` class (`formula.py`): an expression plus the `negated`
flag.  The `get_cell` callback closed over in Python is supplied explicitly
as a lookup function at computation time. -/
structure Formula where
  expression : Expr
  negated : Bool
  deriving DecidableEq

/-- Type `CellValue = Union[str, int, float, Formula]` from `sheet_primitives.py`. -/
inductive CellValue where
  | int (i : Int)
  | float (q : ℚ)
  | text (s : String)
  | formula (f : Formula)

/-- Python exceptions raised by the engine.
* `valueError` — `ValueError(msg)` (parse-time syntax errors, and the only
  exception the parser's `except ValueError` clauses catch);
* `typeMismatch` — the `ValueError` from the final `raise` in
  `_compute_expression`, which names the operator and both computed operands
  (carried structurally here instead of as a formatted message);
* `negateText` — `ValueError("Cannot negate a string.")` in `Formula.compute`;
* `keyError` — `KeyError` from `Spreadsheet._parse_key`;
* `missingCell` — `IndexError`/`KeyError` from `self._cells[row][col]` when
  the row or column holds no value;
* `indexError` — a bare out-of-range string index (e.g. `stripped_val[0]` on
  an empty string, or the unbounded `)` scan running off the end);
* `zeroDivisionError` — Python `ZeroDivisionError` from `/`;
* `typeError` — Python `TypeError` (unreachable in the verified statements);
* `outOfFuel` — fuel exhaustion, modelling unbounded recursion or iteration
  (never arises in the statements below). -/
inductive PyErr where
  | valueError (msg : String)
  | typeMismatch (op : Char) (left right : CellValue)
  | negateText
  | keyError (msg : String)
  | missingCell (key : String)
  | indexError
  | zeroDivisionError
  | typeError
  | outOfFuel

deriving instance DecidableEq for CellValue

deriving instance DecidableEq for PyErr

/-- Operator-dispatch block of `Formula._compute_expression` (`formula.py`
lines 40–57), applied to the two computed operands: string concatenation for
`+` on two `str`s; the four arithmetic operators on the four numeric type
pairings, with Python's result types (`int op int` stays `int` except true
division, which yields a `float`; any `float` operand makes the result
`float`); every other pairing raises the `ValueError` naming the operator
and both operands.  Python's `/` raises `ZeroDivisionError` on a zero
divisor. -/
def applyOp (op : Char) (left_hand right_hand : CellValue) : Except PyErr CellValue :=
  match left_hand, right_hand with
  | .text a, .text b =>
    if op = '+' then .ok (.text (a ++ b))
    else .error (.typeMismatch op left_hand right_hand)
  | .int a, .int b =>
    if op = '*' then .ok (.int (a * b))
    else if op = '/' then
      if b = 0 then .error .zeroDivisionError else .ok (.float ((a : ℚ) / (b : ℚ)))
    else if op = '+' then .ok (.int (a + b))
    else if op = '-' then .ok (.int (a - b))
    else .error (.typeMismatch op left_hand right_hand)
  | .int a, .float b =>
    if op = '*' then .ok (.float ((a : ℚ) * b))
    else if op = '/' then
      if b = 0 then .error .zeroDivisionError else .ok (.float ((a : ℚ) / b))
    else if op = '+' then .ok (.float ((a : ℚ) + b))
    else if op = '-' then .ok (.float ((a : ℚ) - b))
    else .error (.typeMismatch op left_hand right_hand)
  | .float a, .int b =>
    if op = '*' then .ok (.float (a * (b : ℚ)))
    else if op = '/' then
      if b = 0 then .error .zeroDivisionError else .ok (.float (a / (b : ℚ)))
    else if op = '+' then .ok (.float (a + (b : ℚ)))
    else if op = '-' then .ok (.float (a - (b : ℚ)))
    else .error (.typeMismatch op left_hand right_hand)
  | .float a, .float b =>
    if op = '*' then .ok (.float (a * b))
    else if op = '/' then
      if b = 0 then .error .zeroDivisionError else .ok (.float (a / b))
    else if op = '+' then .ok (.float (a + b))
    else if op = '-' then .ok (.float (a - b))
    else .error (.typeMismatch op left_hand right_hand)
  | _, _ => .error (.typeMismatch op left_hand right_hand)

/-- Negation step at the end of `Formula.compute`: `-val` is a `ValueError`
for a `str`, sign flip for numerics; a raw `Formula` value cannot reach this
point, and Python would raise `TypeError` there. -/
def negateValue : CellValue → Except PyErr CellValue
  | .text _ => .error .negateText
  | .int i => .ok (.int (-i))
  | .float q => .ok (.float (-q))
  | .formula _ => .error .typeError

/-- Membership test in `ARITHMETIC_OPERATIONS = ("+", "-", "*", "/")`. -/
def isArithmeticOp (c : Char) : Bool :=
  c = '+' || c = '-' || c = '*' || c = '/'

/-- Token terminators `(")", *ARITHMETIC_OPERATIONS, " ")` used by
`_parse_cell_key` and `_parse_numeric`. -/
def isTerminator (c : Char) : Bool :=
  c = ')' || isArithmeticOp c || c = ' '

/-- Types `Symbol = Union[Operand, Operation]` / `Grammar` from
`formula_parser.py`: during scanning and folding, a deque element is either a
raw operator character or an expression (numeric literal, cell-reference
formula, parenthesized formula, or a folded tuple). -/
inductive Grammar where
  | op (c : Char)
  | expr (e : Expr)
  deriving DecidableEq

/-- Test `symbol in ("+", "-", "*", "/")` on a deque element. -/
def Grammar.isOp : Grammar → Bool
  | .op c => isArithmeticOp c
  | .expr _ => false

/-- A deque element used as an operand of a folded tuple.  A raw operator
character would be embedded as its string, which `_compute_expression` then
treats as a `str` cell key; this case is unreachable because
`_split_by_operations` rejects operator operands first. -/
def Grammar.toExpr : Grammar → Expr
  | .expr e => e
  | .op c => .cellRef c.toString

/-- Embedding of `FormulaParser._split_by_operations`, one reduction pass.  The Python
loop pops elements from the right end of `symbols` and pushes results on the
right end of `split_exp`; here the first argument is the remaining symbols in
pop order (rightmost first) and the accumulator keeps the most recently
pushed element at its head, so the returned list is the resulting deque in
pop order for the next pass.  Note that the operand popped from `split_exp`
(an element lying further right in the original sequence) becomes the tuple's
LEFT slot and the operand popped from `symbols` (further left) its RIGHT
slot. -/
def split_by_operations (operations : List Char) :
    List Grammar → List Grammar → Except PyErr (List Grammar)
  | [], split_exp => .ok split_exp
  | symbol :: rest, split_exp =>
    match symbol with
    | .op c =>
      if c ∈ operations then
        match split_exp, rest with
        | left_operand :: split_tail, right_operand :: rest_tail =>
          if left_operand.isOp || right_operand.isOp then
            .error (.valueError "Operands cannot be operations")
          else
            split_by_operations operations rest_tail
              (.expr (.binOp c left_operand.toExpr right_operand.toExpr) :: split_tail)
        | _, _ => .error (.valueError "Malformed expression.")
      else
        split_by_operations operations rest (symbol :: split_exp)
    | .expr _ => split_by_operations operations rest (symbol :: split_exp)

/-- Embedding of `FormulaParser._operands_to_expression`: fold `*`/`/` first, then
`+`/`-`, then require exactly one remaining element that is not a bare
operator.  (The Python `try/except ValueError` around the two passes
re-raises a `ValueError` with a different message; the error class is
unchanged, so errors are propagated unchanged here.)  The first pass receives
the symbols in pop order, i.e. reversed; its result is already in pop order
for the second pass. -/
def operands_to_expression (symbols : List Grammar) : Except PyErr Expr :=
  match split_by_operations ['*', '/'] symbols.reverse [] with
  | .error e => .error e
  | .ok pass1 =>
    match split_by_operations ['+', '-'] pass1 [] with
    | .error e => .error e
    | .ok expression =>
      match expression with
      | [g] =>
        if g.isOp then .error (.valueError "Malformed expression")
        else .ok g.toExpr
      | _ => .error (.valueError "Malformed expression")

/-- Embedding of `FormulaParser._parse_cell_key`: one or more uppercase letters, then one
or more digits, then end of input or a terminator; returns the key together
with `index - 1` (the last consumed position).  When the digit check fails at
end of input, Python's error-message formatting itself indexes past the end
(`formula[index]`) and raises `IndexError` instead of `ValueError`. -/
def parse_cell_key (cs : List Char) (index : Nat) : Except PyErr (String × Nat) :=
  let letters := (cs.drop index).takeWhile isUpperAZ
  let i1 := index + letters.length
  if letters.length = 0 then
    if index < cs.length then
      .error (.valueError "Malformed cell key. Expected at least one character between A and Z.")
    else
      .error .indexError
  else
    let digits := (cs.drop i1).takeWhile isDigit09
    let i2 := i1 + digits.length
    if digits.length = 0 then
      if i2 < cs.length then
        .error (.valueError "Malformed cell key. Expected at least one digit.")
      else
        .error .indexError
    else
      if i2 ≠ cs.length && !isTerminator (cs.getD i2 ' ') then
        .error (.valueError "Malformed cell key. Unexpecteded token.")
      else
        .ok (⟨letters ++ digits⟩, i2 - 1)

/-- Embedding of `FormulaParser._parse_numeric`: digits, optionally `.` and more digits,
terminated by end of input or a terminator; an integer literal when no `.`
appears, else a float.  `int("")` and `float(".")` raise `ValueError` in
Python, modelled by the empty-digits checks. -/
def parse_numeric (cs : List Char) (index : Nat) : Except PyErr (Numeric × Nat) :=
  let d1 := (cs.drop index).takeWhile isDigit09
  let i1 := index + d1.length
  if i1 = cs.length || isTerminator (cs.getD i1 ' ') then
    if d1.length = 0 then
      .error (.valueError "invalid literal for int() with base 10")
    else
      .ok (.int (digitsToNat d1), i1 - 1)
  else if cs.getD i1 ' ' ≠ '.' then
    .error (.valueError "Malformed numeric. Unexpecteded token.")
  else
    let d2 := (cs.drop (i1 + 1)).takeWhile isDigit09
    let i2 := i1 + 1 + d2.length
    if i2 ≠ cs.length && !isTerminator (cs.getD i2 ' ') then
      .error (.valueError "Malformed numeric. Unexpecteded token.")
    else if d1.length = 0 && d2.length = 0 then
      .error (.valueError "could not convert string to float")
    else
      .ok (.float ((digitsToNat d1 : ℚ) + (digitsToNat d2 : ℚ) / (10 ^ d2.length : ℚ)), i2 - 1)

mutual
/-- Embedding of `FormulaParser.parse_formula` (`formula_parser.py`): require a leading
`=`, run the tokenizing scan from position 1, then fold the symbol deque into
one expression.  `fuel` bounds the recursion into parenthesized
sub-formulas and the scan length; the wrapper below supplies enough fuel
that `outOfFuel` never arises. -/
def parse_formula_aux : Nat → List Char → Bool → Except PyErr Formula
  | 0, _, _ => .error .outOfFuel
  | fuel + 1, cs, negated =>
    if cs.length = 0 || cs.getD 0 ' ' ≠ '=' then
      .error (.valueError "Formula must be non-empty and start with a = sign")
    else
      match parse_loop fuel cs 1 false [] with
      | .error e => .error e
      | .ok symbols =>
        match operands_to_expression symbols with
        | .error e => .error e
        | .ok e => .ok ⟨e, negated⟩

/-- The `while i < len(formula)` scan of `parse_formula`, carrying the
position `i`, the pending-negation flag `negate_value` and the symbol deque:
* `(` hands over to `_parse_sub_expression`, which scans forward to the
  FIRST `)` (running past the end is an `IndexError`), recursively parses
  `"=" + inner` with the pending negation, and resumes after the closer;
* an arithmetic character becomes a pending negation when the immediately
  preceding raw character is `=` or arithmetic and no negation is pending,
  else it is appended as a binary operator;
* spaces are skipped;
* otherwise a cell key is attempted (appended as a nested single-reference
  formula carrying the pending negation), then a numeric literal (negated
  directly if pending); `except ValueError` falls through, any other error
  propagates, and if both fail the scan raises `UnexpectedToken`. -/
def parse_loop : Nat → List Char → Nat → Bool → List Grammar → Except PyErr (List Grammar)
  | 0, _, _, _, _ => .error .outOfFuel
  | fuel + 1, cs, i, negate_value, symbols =>
    if i < cs.length then
      let c := cs.getD i ' '
      if c = '(' then
        match (cs.drop (i + 1)).findIdx? (fun x => x = ')') with
        | none => .error .indexError
        | some d =>
          match parse_formula_aux fuel ('=' :: (cs.drop (i + 1)).take d) negate_value with
          | .error e => .error e
          | .ok sub =>
            parse_loop fuel cs (i + 1 + d + 1) false
              (symbols ++ [.expr (.subFormula sub.expression sub.negated)])
      else if isArithmeticOp c then
        if (cs.getD (i - 1) ' ' = '=' || isArithmeticOp (cs.getD (i - 1) ' ')) && !negate_value then
          parse_loop fuel cs (i + 1) true symbols
        else
          parse_loop fuel cs (i + 1) negate_value (symbols ++ [.op c])
      else if c = ' ' then
        parse_loop fuel cs (i + 1) negate_value symbols
      else
        match parse_cell_key cs i with
        | .ok (cell_key, i2) =>
          parse_loop fuel cs (i2 + 1) false
            (symbols ++ [.expr (.subFormula (.wrap (.cellRef cell_key)) negate_value)])
        | .error (.valueError _) =>
          match parse_numeric cs i with
          | .ok (numeric_literal, i2) =>
            parse_loop fuel cs (i2 + 1) false
              (symbols ++ [.expr (.num (if negate_value then numeric_literal.neg else numeric_literal))])
          | .error (.valueError _) =>
            .error (.valueError ("Unexpected token in formula: " ++ c.toString))
          | .error e => .error e
        | .error e => .error e
    else
      .ok symbols
end

/-- Top-level formula parse as invoked by `Spreadsheet.set_cell`
(`negated` defaults to `False`); the fuel is an over-approximation of the
scan work, so `outOfFuel` is unreachable from here. -/
def parse_formula (formula : String) : Except PyErr Formula :=
  parse_formula_aux ((formula.length + 2) * (formula.length + 2)) formula.data false

/-- One row of the grid: `dict[Col, CellValue]`, modelled as an association
list (first binding for a column wins). -/
abbrev SheetRow := List (Char × CellValue)

/-- Grid state `Spreadsheet._cells: list[dict[Col, CellValue]]`. -/
abbrev Sheet := List SheetRow

/-- Assignment `d[col] = v` on a row dict: overwrite the existing binding or add one. -/
def setInRow (row : SheetRow) (col : Char) (v : CellValue) : SheetRow :=
  if row.any (fun p => p.1 = col) then
    row.map (fun p => if p.1 = col then (col, v) else p)
  else
    row ++ [(col, v)]

/-- Assignment `self._cells[row][col] = v` for an in-range row. -/
def setAt (cells : Sheet) (row : Nat) (col : Char) (v : CellValue) : Sheet :=
  cells.set row (setInRow (cells.getD row []) col v)

/-- Embedding of `Spreadsheet._extend_rows`: append empty row dicts until the grid has
`num_rows` rows. -/
def extend_rows (cells : Sheet) (num_rows : Nat) : Sheet :=
  cells ++ List.replicate (num_rows - cells.length) []

/-- Embedding of `Spreadsheet.set_cell`: parse the key, grow the grid to `2*row + 1` rows
when the row is out of range, strip the raw value, then try in order:
integer parse, float parse, formula parse when the raw value is non-empty
and the STRIPPED value starts with `=` — note the guard checks
`len(cell_value) > 0` on the unstripped input but indexes `stripped_val[0]`,
so a non-empty all-whitespace input raises an uncaught `IndexError` — and
otherwise store the raw (unstripped) string as text. -/
def set_cell (cells : Sheet) (cell_key : String) (cell_value : String) :
    Except PyErr Sheet :=
  match parse_key cell_key with
  | .error msg => .error (.keyError msg)
  | .ok (row, col) =>
    let cells := if cells.length ≤ row then extend_rows cells (2 * row + 1) else cells
    let stripped_val := pyStrip cell_value
    match pythonInt stripped_val with
    | some n => .ok (setAt cells row col (.int n))
    | none =>
      match pythonFloat stripped_val with
      | some q => .ok (setAt cells row col (.float q))
      | none =>
        if cell_value.length > 0 then
          match stripped_val.data with
          | [] => .error .indexError
          | c :: _ =>
            if c = '=' then
              match parse_formula stripped_val with
              | .ok f => .ok (setAt cells row col (.formula f))
              | .error e => .error e
            else
              .ok (setAt cells row col (.text cell_value))
        else
          .ok (setAt cells row col (.text cell_value))

/-- Embedding of `Formula._compute_expression` (`formula.py`): literals resolve to
themselves, a `str` is a cell key resolved through the supplied lookup
capability, a nested `Formula` computes itself (its expression followed by
its `negated` flag, as in `Formula.compute`), `("=", e)` unwraps, and a
binary tuple computes both sides then applies the operator dispatch. -/
def compute_expression (lookup : String → Except PyErr CellValue) :
    Expr → Except PyErr CellValue
  | .num (.int i) => .ok (.int i)
  | .num (.float q) => .ok (.float q)
  | .cellRef key => lookup key
  | .subFormula e negated =>
    match compute_expression lookup e with
    | .error er => .error er
    | .ok val => if negated then negateValue val else .ok val
  | .wrap e => compute_expression lookup e
  | .binOp op l r =>
    match compute_expression lookup l with
    | .error e => .error e
    | .ok left_hand =>
      match compute_expression lookup r with
      | .error e => .error e
      | .ok right_hand => applyOp op left_hand right_hand

/-- Embedding of `Formula.compute`: compute the owned expression against the lookup
capability, then apply the `negated` flag. -/
def compute_formula (lookup : String → Except PyErr CellValue) (f : Formula) :
    Except PyErr CellValue :=
  match compute_expression lookup f.expression with
  | .error er => .error er
  | .ok val => if f.negated then negateValue val else .ok val

/-- Embedding of `Spreadsheet._get_cell` (the lookup capability handed to every parsed
formula): parse the key, read `self._cells[row][col]` (a missing row raises
`IndexError`, a missing column `KeyError`; both are `missingCell` here),
return plain values directly and recompute formula values on every read.
Each level of recursion through the lookup consumes one unit of fuel,
modelling the Python call stack; Python's unbounded recursion corresponds to
arbitrarily large fuel. -/
def get_cell_value (cells : Sheet) : Nat → String → Except PyErr CellValue
  | 0, _ => .error .outOfFuel
  | fuel + 1, cell_key =>
    match parse_key cell_key with
    | .error msg => .error (.keyError msg)
    | .ok (row, col) =>
      match cells.get? row with
      | none => .error (.missingCell cell_key)
      | some rowMap =>
        match rowMap.lookup col with
        | none => .error (.missingCell cell_key)
        | some value =>
          match value with
          | .formula f => compute_formula (get_cell_value cells fuel) f
          | v => .ok v

/-- Embedding of `Spreadsheet.get_cell`, the public read path. -/
def get_cell (cells : Sheet) (fuel : Nat) (cell_key : String) : Except PyErr CellValue :=
  get_cell_value cells fuel cell_key

/-- Numeric cell values (`int` or `float`), the "numeric" of the coercion
table. -/
def CellValue.isNumeric : CellValue → Bool
  | .int _ => true
  | .float _ => true
  | _ => false

/-- A numeric cell value equal to zero (the divisor values on which Python's
`/` raises `ZeroDivisionError`). -/
def CellValue.isZero : CellValue → Bool
  | .int i => i = 0
  | .float q => q = 0
  | _ => false

/-- A `float` cell value. -/
def CellValue.isFloat : CellValue → Bool
  | .float _ => true
  | _ => false

/-- An operand pairing covered by the coercion table for a given operator:
text `+` text, or any numeric-numeric pairing. -/
def coveredPairing (op : Char) (l r : CellValue) : Bool :=
  (match l, r with | .text _, .text _ => op = '+' | _, _ => false)
    || (l.isNumeric && r.isNumeric)

/-- Run a sequence of `set_cell` operations starting from the empty sheet. -/
def runSheet (ops : List (String × String)) : Except PyErr Sheet :=
  ops.foldlM (fun s kv => set_cell s kv.1 kv.2) ([] : Sheet)

/-- Run a sequence of `set_cell` operations, then read one cell. -/
def readCell (ops : List (String × String)) (cell_key : String) :
    Except PyErr CellValue :=
  match runSheet ops with
  | .error e => .error e
  | .ok s => get_cell s 100 cell_key

/-- A digit character is not Python whitespace. -/
lemma not_whitespace_of_digit {c : Char} (h : isDigit09 c) : isPyWhitespace c = false := by
  by_contra hw
  simp only [Bool.not_eq_false, isPyWhitespace, Bool.or_eq_true, decide_eq_true_eq] at hw
  rcases hw with ((((rfl | rfl) | rfl) | rfl) | rfl) | rfl <;> simp [isDigit09] at h

/-- The `dropWhile` of the whitespace predicate is the identity on all-digit
lists. -/
lemma dropWhile_ws_of_all_digits (l : List Char) (h : l.all isDigit09) :
    l.dropWhile isPyWhitespace = l := by
  cases l with
  | nil => rfl
  | cons c t =>
    rw [List.dropWhile_cons]
    have hc : isDigit09 c := by
      simp only [List.all_cons, Bool.and_eq_true] at h
      exact h.1
    simp [not_whitespace_of_digit hc]

/-- Python's `strip` leaves an all-digit string unchanged. -/
lemma pyStripList_of_all_digits (cs : List Char) (h : cs.all isDigit09) :
    pyStripList cs = cs := by
  unfold pyStripList
  rw [dropWhile_ws_of_all_digits cs h,
    dropWhile_ws_of_all_digits cs.reverse (by simpa using h),
    List.reverse_reverse]

/-- A non-empty all-digit list is a valid Python integer-literal body. -/
lemma intDigitsValid_of_all_digits (cs : List Char) (hne : cs ≠ []) (h : cs.all isDigit09) :
    intDigitsValid cs = true := by
  induction cs with
  | nil => exact absurd rfl hne
  | cons c t ih =>
    have hc : isDigit09 c := by
      simp only [List.all_cons, Bool.and_eq_true] at h
      exact h.1
    have ht : t.all isDigit09 := by
      simp only [List.all_cons, Bool.and_eq_true] at h
      exact h.2
    cases t with
    | nil => simp [intDigitsValid, hc]
    | cons c2 t2 =>
      have hc2 : isDigit09 c2 := by
        simp only [List.all_cons, Bool.and_eq_true] at ht
        exact ht.1
      have hu : c2 ≠ '_' := by
        intro e
        rw [e] at hc2
        simp [isDigit09] at hc2
      simp [intDigitsValid, hc, hu, ih (by simp) ht]

/-- Python's `int()` on a non-empty all-digit string yields its decimal
value. -/
lemma pythonInt_of_all_digits (cs : List Char) (hne : cs ≠ []) (h : cs.all isDigit09) :
    pythonInt ⟨cs⟩ = some (digitsToNat cs) := by
  unfold pythonInt
  rw [show (String.mk cs).data = cs from rfl, pyStripList_of_all_digits cs h]
  cases cs with
  | nil => exact absurd rfl hne
  | cons c t =>
    have hc : isDigit09 c := by
      simp only [List.all_cons, Bool.and_eq_true] at h
      exact h.1
    have h1 : c ≠ '+' := by
      intro e; rw [e] at hc; simp [isDigit09] at hc
    have h2 : c ≠ '-' := by
      intro e; rw [e] at hc; simp [isDigit09] at hc
    simp [h1, h2, intDigitsValid_of_all_digits (c :: t) (by simp) h]

/-- The cell-key shape asserted by the claim, written from the spec's words
for comparison with `parse_key`: one uppercase letter A–Z followed by a
non-empty digit string of positive value. -/
def claimedKeyShape (s : String) : Bool :=
  match s.data with
  | c :: rest =>
    isUpperAZ c && !rest.isEmpty && rest.all isDigit09 && decide (0 < digitsToNat rest)
  | [] => false

section Claims

/-- C2. Multiplication and division bind tighter than addition and
subtraction, and parentheses override this precedence: with cells A1=3 and
A2=2, evaluating the formula `"=A1+A2*A2"` yields 7, and evaluating
`"=(A1+A2)*A2"` yields 10. -/
theorem precedence_and_grouping :
    readCell [("A1", "3"), ("A2", "2"), ("A11", "=A1+A2*A2")] "A11" = .ok (.int 7)
      ∧ readCell [("A1", "3"), ("A2", "2"), ("A12", "=(A1+A2)*A2")] "A12" = .ok (.int 10) := by
  constructor <;> rfl

/-- C1, counterexample. The claim states that `*` and `/` are never
treated as unary-negation markers.  On the code, `"=*5"` — where `*` follows
`=`, a position at which the claim admits only `-` or `+` as negation
markers — parses successfully and computes to `-5`: the `*` set the pending
negation and the literal `5` was negated.  Under the claim the `*` would
have been appended as a binary operator and parsing would have failed. -/
theorem star_is_negation_marker :
    readCell [("A1", "=*5")] "A1" = .ok (.int (-5)) := by rfl

/-- C1, amended. During tokenization, an arithmetic character — any of
`+ - * /` — is treated as a unary-negation marker exactly when the
immediately preceding character of the raw formula text is `=` or one of
`+ - * /` and no negation is already pending; the pending negation applies
(always as a minus, also when the marker is `+`, `*` or `/`) to the next
parsed operand (cell reference, numeric literal, or parenthesized group) and
is cleared once consumed.  Each conjunct exercises one clause: `-`, `+`, `/`
after `=` negate; `*` and `-` negate after an operator; after an operand or
a space the character is a binary operator; a second marker while a negation
is pending is read as a binary operator (making `"=--5"` malformed); the
negation is consumed by the first operand only; it applies to parenthesized
groups and to cell references. -/
theorem negation_marker_conditions :
    readCell [("A1", "=-5")] "A1" = .ok (.int (-5))
      ∧ readCell [("A1", "=+5")] "A1" = .ok (.int (-5))
      ∧ readCell [("A1", "=/5")] "A1" = .ok (.int (-5))
      ∧ readCell [("A1", "=5**5")] "A1" = .ok (.int (-25))
      ∧ readCell [("A1", "=5*-5")] "A1" = .ok (.int (-25))
      ∧ readCell [("A1", "=5-5")] "A1" = .ok (.int 0)
      ∧ readCell [("A1", "=5 - 5")] "A1" = .ok (.int 0)
      ∧ (∃ msg, readCell [("A1", "=--5")] "A1" = .error (.valueError msg))
      ∧ readCell [("A1", "=-5+5")] "A1" = .ok (.int 0)
      ∧ readCell [("A1", "=-(1+2)")] "A1" = .ok (.int (-3))
      ∧ readCell [("A1", "3"), ("A2", "=-A1")] "A2" = .ok (.int (-3)) := by
  refine ⟨rfl, rfl, rfl, rfl, rfl, rfl, rfl, ⟨_, rfl⟩, rfl, rfl, rfl⟩

/-- C10, counterexample. The claim states that every formula containing
a division whose right operand computes to numeric zero raises a
division-by-zero error.  The formula `"=1/0"` — right operand `0` — instead
computes to the value `0.0`: the multiplicative folding pass swaps the
operand order, so the Python division performed is `0/1`. -/
theorem division_right_zero_no_error :
    readCell [("A1", "=1/0")] "A1" = .ok (.float 0) := by
  have h : readCell [("A1", "=1/0")] "A1" = .ok (.float (((0 : Int) : ℚ) / ((1 : Int) : ℚ))) := rfl
  rw [h]
  norm_num

/-- C10, amended. Division is unguarded: compute raises Python's
`ZeroDivisionError` — an error kind absent from the specified taxonomy (it
is not the `TypeMismatch` `ValueError`) — exactly when the computed divisor
is numeric zero; but because the `*`/`/` folding pass swaps operand order,
the divisor of a division written `a/b` in formula text is the LEFT textual
operand `a`.  So `"=0/1"` raises the error while `"=1/0"` returns `0.0`;
at the expression-tree level, any division node whose right slot computes to
numeric zero (with a numeric left slot) raises `ZeroDivisionError`. -/
theorem division_by_zero_unguarded :
    readCell [("A1", "=0/1")] "A1" = .error .zeroDivisionError
      ∧ (readCell [("A1", "=1/0")] "A1").isOk
      ∧ (∀ l r : CellValue, l.isNumeric → r.isNumeric → r.isZero →
          applyOp '/' l r = .error .zeroDivisionError) := by
  refine ⟨rfl, by rfl, ?_⟩
  intro l r hl hr hz
  cases l <;> cases r <;>
    simp_all [CellValue.isNumeric, CellValue.isZero, applyOp]

/-- C10, amended, witness. The universally quantified part of
`division_by_zero_unguarded` instantiated at the divisor `int 0` with
dividend `int 5`. -/
theorem division_by_zero_unguarded_witness :
    applyOp '/' (.int 5) (.int 0) = .error .zeroDivisionError :=
  division_by_zero_unguarded.2.2 (.int 5) (.int 0) (by decide) (by decide) (by decide)

/-- C3, counterexample. The claim states that the four numeric operand
pairings succeed for all four operators.  In the BinaryOp node `1 / 0` both
operands evaluate without error and the pairing (Int, Int) is covered by the
table, yet the code raises `ZeroDivisionError` instead of succeeding.  (The
lookup capability is irrelevant: the node contains no cell references.) -/
theorem int_pair_division_not_success :
    compute_expression (fun k => .error (.missingCell k))
      (.binOp '/' (.num (.int 1)) (.num (.int 0))) = .error .zeroDivisionError := by rfl

/-- C3, amended. For every BinaryOp node whose two operands evaluate
without error, the result follows the coercion table: Text `+` Text yields
the concatenation; the four numeric pairings (Int,Int), (Float,Float),
(Int,Float), (Float,Int) succeed for all four operators EXCEPT that division
by a numeric-zero divisor raises `ZeroDivisionError`; and every operand
pairing not covered by the table (e.g. Text `-` Text, Text `*` numeric,
Text `+` numeric) fails with the TypeMismatch error naming the operator and
both operand representations. -/
theorem coercion_table_amended :
    (∀ a b : String, applyOp '+' (.text a) (.text b) = .ok (.text (a ++ b)))
      ∧ (∀ op l r, (op = '+' ∨ op = '-' ∨ op = '*' ∨ op = '/') →
          l.isNumeric → r.isNumeric → ¬(op = '/' ∧ r.isZero = true) →
          ∃ v, applyOp op l r = .ok v)
      ∧ (∀ op l r, (op = '+' ∨ op = '-' ∨ op = '*' ∨ op = '/') →
          coveredPairing op l r = false →
          applyOp op l r = .error (.typeMismatch op l r)) := by
  refine ⟨fun a b => rfl, ?_, ?_⟩
  · intro op l r hop hl hr hz
    rcases hop with rfl | rfl | rfl | rfl <;> cases l <;> cases r <;>
      simp_all [applyOp, CellValue.isNumeric, CellValue.isZero]
  · intro op l r hop hcov
    rcases hop with rfl | rfl | rfl | rfl <;> cases l <;> cases r <;>
      simp_all [applyOp, coveredPairing, CellValue.isNumeric]

/-- C3, amended, witness. `coercion_table_amended` instantiated at
concrete operands: text concatenation, a successful mixed numeric pairing,
and an uncovered pairing failing with the structured TypeMismatch error. -/
theorem coercion_table_amended_witness :
    applyOp '+' (.text "a") (.text "b") = .ok (.text ("a" ++ "b"))
      ∧ (∃ v, applyOp '-' (.int 2) (.float 3) = .ok v)
      ∧ applyOp '*' (.text "a") (.int 1) = .error (.typeMismatch '*' (.text "a") (.int 1)) :=
  ⟨coercion_table_amended.1 "a" "b",
   coercion_table_amended.2.1 '-' (.int 2) (.float 3) (by simp) (by decide) (by decide) (by decide),
   coercion_table_amended.2.2 '*' (.text "a") (.int 1) (by simp) (by decide)⟩

/-- C5, counterexample. The claim states that for two Integer operands
`/` yields a floating quotient.  For the Integer operands 3 and 0 the code
raises `ZeroDivisionError` instead of yielding any quotient. -/
theorem int_division_by_zero_errors :
    applyOp '/' (.int 3) (.int 0) = .error .zeroDivisionError := by rfl

/-- C5, amended. For two Integer operands, `+`, `-`, and `*` yield an
Integer result; `/` yields a floating quotient even for two Integers
whenever the divisor is nonzero (a zero divisor raises `ZeroDivisionError`
instead) — e.g. with A1=3, `"=A1/A1"` evaluates to the value 1 as a float
quotient; and any numeric pairing with at least one Float operand yields a
Float for all four operators, again except division by numeric zero. -/
theorem integer_arithmetic_and_promotion :
    (∀ i j : Int, applyOp '+' (.int i) (.int j) = .ok (.int (i + j))
        ∧ applyOp '-' (.int i) (.int j) = .ok (.int (i - j))
        ∧ applyOp '*' (.int i) (.int j) = .ok (.int (i * j)))
      ∧ (∀ i j : Int, j ≠ 0 →
          applyOp '/' (.int i) (.int j) = .ok (.float ((i : ℚ) / (j : ℚ))))
      ∧ readCell [("A1", "3"), ("A10", "=A1/A1")] "A10" = .ok (.float 1)
      ∧ (∀ op l r, (op = '+' ∨ op = '-' ∨ op = '*' ∨ op = '/') →
          l.isNumeric → r.isNumeric → (l.isFloat ∨ r.isFloat) →
          ¬(op = '/' ∧ r.isZero = true) →
          ∃ q : ℚ, applyOp op l r = .ok (.float q)) := by
  refine ⟨?_, ?_, ?_, ?_⟩
  · intro i j
    refine ⟨rfl, rfl, rfl⟩
  · intro i j hj
    simp [applyOp, hj]
  · have h : readCell [("A1", "3"), ("A10", "=A1/A1")] "A10"
        = .ok (.float (((3 : Int) : ℚ) / ((3 : Int) : ℚ))) := rfl
    rw [h]
    norm_num
  · intro op l r hop hl hr hf hz
    rcases hop with rfl | rfl | rfl | rfl <;> cases l <;> cases r <;>
      simp_all [applyOp, CellValue.isNumeric, CellValue.isFloat, CellValue.isZero]

/-- C5, amended, witness. `integer_arithmetic_and_promotion`
instantiated at the nonzero Integer division 6/3 and at a Float-Int
addition. -/
theorem integer_arithmetic_and_promotion_witness :
    applyOp '/' (.int 6) (.int 3) = .ok (.float (((6 : Int) : ℚ) / ((3 : Int) : ℚ)))
      ∧ (∃ q : ℚ, applyOp '+' (.float 1) (.int 2) = .ok (.float q)) :=
  ⟨integer_arithmetic_and_promotion.2.1 6 3 (by decide),
   integer_arithmetic_and_promotion.2.2.2 '+' (.float 1) (.int 2) (by simp)
     (by decide) (by decide) (by decide) (by decide)⟩

/-- C6, counterexample. The claim states that `"= A1"` computes
identically to `"=A1+A1"`.  With A1 = 3, `"= A1"` computes 3 while
`"=A1+A1"` computes 6. -/
theorem space_after_equals_not_sum :
    readCell [("A1", "3"), ("A2", "= A1")] "A2" = .ok (.int 3)
      ∧ readCell [("A1", "3"), ("A2", "=A1+A1")] "A2" = .ok (.int 6)
      ∧ CellValue.int 3 ≠ CellValue.int 6 :=
  ⟨rfl, rfl, by decide⟩

/-- C6, amended. The formula texts `"= A1"`, `" =A1"`, and
`"=A1 + A1"` all parse successfully through the set-cell path (which strips
surrounding whitespace); whitespace around the `=` and around operators does
not affect parsing or the computed value: `"= A1"` and `" =A1"` produce
exactly the same stored state as `"=A1"` for every sheet and key, and
`"=A1 + A1"` the same as `"=A1+A1"` — but `"= A1"` computes the value of
A1, not of A1+A1. -/
theorem whitespace_insensitive_parsing :
    (∀ (s : Sheet) (k : String), set_cell s k "= A1" = set_cell s k "=A1")
      ∧ (∀ (s : Sheet) (k : String), set_cell s k " =A1" = set_cell s k "=A1")
      ∧ (∀ (s : Sheet) (k : String), set_cell s k "=A1 + A1" = set_cell s k "=A1+A1")
      ∧ readCell [("A1", "3"), ("A2", "= A1")] "A2"
          = readCell [("A1", "3"), ("A2", "=A1")] "A2"
      ∧ readCell [("A1", "3"), ("A2", "=A1 + A1")] "A2" = .ok (.int 6) := by
  refine ⟨?_, ?_, ?_, rfl, rfl⟩ <;>
    · intro s k
      unfold set_cell
      cases h : parse_key k with
      | error m => rfl
      | ok rc => rfl

/-- C7. Syntax errors inside a parenthesized sub-formula are raised by
the set-cell (parse) operation itself, because nested groups are parsed
eagerly at formula-set time: setting `"=(A1+)+A2"` fails with the parse-time
`ValueError` on every sheet, whatever the referenced cells contain.
`TypeMismatch` and `MissingCell` are never raised at parse time: setting
`"=A1+A3"` succeeds on every sheet, and the one parsed formula produces
`TypeMismatch` or `MissingCell` (or a value) only when computed, depending
on the cells' contents at read time. -/
theorem eager_paren_parse_lazy_value_errors :
    (∀ s : Sheet, set_cell s "B1" "=(A1+)+A2" = .error (.valueError "Malformed expression."))
      ∧ (∀ s : Sheet, ∃ s2, set_cell s "B1" "=A1+A3" = .ok s2)
      ∧ (∃ f, parse_formula "=A1+A3" = .ok f
          ∧ compute_formula (get_cell_value [[('A', .int 3)], [], [('A', .text "a")]] 10) f
              = .error (.typeMismatch '+' (.int 3) (.text "a"))
          ∧ compute_formula (get_cell_value [[('A', .int 3)], [], [('A', .int 4)]] 10) f
              = .ok (.int 7)
          ∧ compute_formula (get_cell_value [] 10) f = .error (.missingCell "A1")) := by
  exact ⟨fun s => rfl, fun s => ⟨_, rfl⟩, _, rfl, rfl, rfl, rfl⟩

/-- C8. Formula values are not memoized: reading a cell that holds a
formula recomputes `Formula.compute` against the current sheet (the general
equation), so after a dependency cell is overwritten, a subsequent read of
the formula cell returns the value computed from the new contents: with
A4 = `"=A1+A1"`, reading A4 gives 6 while A1 = 3 and gives 10 after A1 is
overwritten with 5. -/
theorem formula_read_recomputes :
    (∀ (cells : Sheet) (fuel : Nat) (key : String) (row : Nat) (col : Char)
        (rowMap : SheetRow) (f : Formula),
        parse_key key = .ok (row, col) →
        cells.get? row = some rowMap →
        rowMap.lookup col = some (.formula f) →
        get_cell cells (fuel + 1) key = compute_formula (get_cell_value cells fuel) f)
      ∧ readCell [("A1", "3"), ("A4", "=A1+A1")] "A4" = .ok (.int 6)
      ∧ readCell [("A1", "3"), ("A4", "=A1+A1"), ("A1", "5")] "A4" = .ok (.int 10) := by
  refine ⟨?_, rfl, rfl⟩
  intro cells fuel key row col rowMap f hpk hrow hcol
  rw [List.get?_eq_getElem?] at hrow
  simp [get_cell, get_cell_value, hpk, hrow, hcol]

/-- C8, witness. The general recompute equation of
`formula_read_recomputes` instantiated at a concrete sheet holding
`A4 = "=A1+A1"` as a parsed formula. -/
theorem formula_read_recomputes_witness :
    get_cell [[('A', .int 3)], [], [],
        [('A', .formula ⟨.binOp '+' (.subFormula (.wrap (.cellRef "A1")) false)
          (.subFormula (.wrap (.cellRef "A1")) false), false⟩)]] 4 "A4"
      = compute_formula
          (get_cell_value [[('A', .int 3)], [], [],
            [('A', .formula ⟨.binOp '+' (.subFormula (.wrap (.cellRef "A1")) false)
              (.subFormula (.wrap (.cellRef "A1")) false), false⟩)]] 3)
          ⟨.binOp '+' (.subFormula (.wrap (.cellRef "A1")) false)
            (.subFormula (.wrap (.cellRef "A1")) false), false⟩ :=
  formula_read_recomputes.1 _ 3 "A4" 3 'A' _ _ (by rfl) (by rfl) (by rfl)

/-- C9. For every value string that is non-empty but strips to the empty
string, `set_cell` with the valid key `"A1"` raises the uncaught
`IndexError` (indexing character 0 of the empty stripped string) instead of
storing the text or reporting any of the specified error kinds: the guard
checks the length of the unstripped input but indexes the stripped one. -/
theorem whitespace_only_value_index_error (s : Sheet) (v : String)
    (hlen : 0 < v.length) (hstrip : pyStrip v = "") :
    set_cell s "A1" v = .error .indexError := by
  unfold set_cell
  rw [show parse_key "A1" = .ok (0, 'A') from rfl]
  simp only [hstrip]
  simp [hlen, show pythonInt "" = none from rfl, show pythonFloat "" = none from rfl]

/-- C9, witness. `whitespace_only_value_index_error` at the one-space
value `" "`. -/
theorem whitespace_only_value_index_error_witness :
    0 < (" " : String).length ∧ pyStrip " " = ""
      ∧ set_cell [] "A1" " " = .error .indexError :=
  ⟨by decide, by rfl, whitespace_only_value_index_error [] " " (by decide) (by rfl)⟩

/-- C4, counterexample. The claim states that cell-key parsing succeeds
exactly for `<L><N>` with `L` a single uppercase letter and `N` a positive
integer digit string.  But `_parse_key` delegates the remainder to Python's
`int()`, which also accepts an optional sign (as well as surrounding
whitespace and underscores between digits): `"A+2"` is not of the claimed
shape, yet parsing succeeds with row index 1 (external row 2). -/
theorem parse_key_accepts_signed_remainder :
    parse_key "A+2" = .ok (1, 'A') ∧ claimedKeyShape "A+2" = false :=
  ⟨rfl, rfl⟩

/-- C4, amended. Cell-key parsing succeeds, yielding the (row, column)
pair, exactly for strings of length ≥ 2 whose first character is an
uppercase letter A–Z and whose remainder parses under Python `int()`
semantics (digits, optionally with a sign, surrounding whitespace, or
underscores between digits) to an integer n ≥ 1; in particular every
`<L><digits>` key with positive value succeeds with row index n − 1.  Every
other shape fails with the `MalformedKey` `KeyError`: strings shorter than
2 characters, a non-uppercase first character, a remainder not parseable by
`int()`, and a resulting row number ≤ 0. -/
theorem parse_key_characterization :
    (∀ (c : Char) (ds : List Char), isUpperAZ c → ds ≠ [] → ds.all isDigit09 →
        1 ≤ digitsToNat ds →
        parse_key ⟨c :: ds⟩ = .ok (digitsToNat ds - 1, c))
      ∧ (∀ s : String, s.length < 2 → ∃ m, parse_key s = .error m)
      ∧ (∀ (s : String) (c : Char) (rest : List Char), s.data = c :: rest →
          isUpperAZ c = false → ∃ m, parse_key s = .error m)
      ∧ (∀ (s : String) (c : Char) (rest : List Char), s.data = c :: rest →
          pythonInt ⟨rest⟩ = none → ∃ m, parse_key s = .error m)
      ∧ (∀ (s : String) (c : Char) (rest : List Char) (n : Int), s.data = c :: rest →
          pythonInt ⟨rest⟩ = some n → n ≤ 0 → ∃ m, parse_key s = .error m)
      ∧ (∀ (s : String) (c : Char) (rest : List Char) (n : Int), s.data = c :: rest →
          2 ≤ s.length → isUpperAZ c → pythonInt ⟨rest⟩ = some n → 1 ≤ n →
          parse_key s = .ok ((n - 1).toNat, c)) := by
  refine ⟨?_, ?_, ?_, ?_, ?_, ?_⟩
  · intro c ds hupper hne hdigits hpos
    have h4 : 0 < ds.length := List.length_pos.mpr hne
    have h2 : ¬((String.mk (c :: ds)).length < 2) := by
      have h3 : (String.mk (c :: ds)).length = ds.length + 1 := rfl
      omega
    simp [parse_key, h2, hupper, pythonInt_of_all_digits ds hne hdigits,
      show ¬((digitsToNat ds : Int) - 1 < 0) from by omega]
    omega
  · intro s hl
    exact ⟨"Malformed cell key.", by simp [parse_key, hl]⟩
  · intro s c rest hdata hupper
    by_cases hl : s.length < 2
    · exact ⟨"Malformed cell key.", by simp [parse_key, hl]⟩
    · exact ⟨"Malformed cell key. Expected first half to be a character between A and Z.",
        by simp [parse_key, hl, hdata, hupper]⟩
  · intro s c rest hdata hint
    by_cases hl : s.length < 2
    · exact ⟨"Malformed cell key.", by simp [parse_key, hl]⟩
    · by_cases hupper : isUpperAZ c
      · exact ⟨"Malformed cell key. Expected second half to be integer row identifier",
          by simp [parse_key, hl, hdata, hupper, hint]⟩
      · exact ⟨"Malformed cell key. Expected first half to be a character between A and Z.",
          by simp [parse_key, hl, hdata, hupper]⟩
  · intro s c rest n hdata hint hneg
    by_cases hl : s.length < 2
    · exact ⟨"Malformed cell key.", by simp [parse_key, hl]⟩
    · by_cases hupper : isUpperAZ c
      · exact ⟨"Malformed cell key. Expected row identifier to be greater than 0.",
          by simp [parse_key, hl, hdata, hupper, hint, show (n : Int) - 1 < 0 from by omega]⟩
      · exact ⟨"Malformed cell key. Expected first half to be a character between A and Z.",
          by simp [parse_key, hl, hdata, hupper]⟩
  · intro s c rest n hdata hlen hupper hint hpos
    simp [parse_key, show ¬(s.length < 2) from by omega, hdata, hupper, hint,
      show ¬((n : Int) - 1 < 0) from by omega]

/-- C4, amended, witness. The digit-string success clause of
`parse_key_characterization` instantiated at `"A7"`, and the row-zero
failure clause at `"A0"`. -/
theorem parse_key_characterization_witness :
    parse_key "A7" = .ok (6, 'A') ∧ (∃ m, parse_key "A0" = .error m) :=
  ⟨parse_key_characterization.1 'A' ['7'] (by decide) (by decide) (by decide) (by decide),
   parse_key_characterization.2.2.2.2.1 "A0" 'A' ['0'] 0 (by rfl) (by rfl) (by decide)⟩

end Claims

end Spreadsheet
